import Mathlib

/-!
Shallow embedding of the booking core of the Telemedicine Appointment
Scheduler (`app.py`): slot generation, the availability query with its
cache, the persistence routine `save_appointment_to_db`, and the form
submission handler `handle_appointment_booking`.

Modelling conventions:
* MongoDB's `appointments` collection is a `List Booking`; `insert_one`
  appends.  A raised exception from `insert_one` is modelled by the
  state flag `insertFails`; a raised exception from `find` by
  `readFails`; a missing connection (`mongo_client is None`) by
  `connected = false`.
* `datetime.now()` timestamps are abstract naturals; the formatted
  date string of "today + i days" is an abstract function
  `dateStr : Nat -> String`.
* `uuid.uuid4()` is an oracle input: the fresh id is passed in.
* Python string methods `.strip()` / `.lower()` are `pyStrip` /
  `pyLower` below, and Python truthiness of a string/number is the
  nonemptiness / nonzero test used in `validDraft`.
* The `@st.cache_data` cache on `get_available_slots` is the
  `slotsCache` field: a `some` value is served as-is, a `none` cache
  is recomputed and filled; `get_available_slots.clear()` sets it to
  `none`.
-/

/-- Python `str.isspace` characters used by `str.strip()`. -/
def pyIsSpace (c : Char) : Bool :=
  c = ' ' || c = '\t' || c = '\n' || c = '\r' || c = '\x0b' || c = '\x0c'

/-- Python `str.strip()` on the character list: drop whitespace from both ends. -/
def stripChars (l : List Char) : List Char :=
  ((l.dropWhile pyIsSpace).reverse.dropWhile pyIsSpace).reverse

/-- Python `str.strip()`. -/
def pyStrip (s : String) : String :=
  String.mk (stripChars s.data)

/-- Python `str.lower()` (ASCII model). -/
def pyLower (s : String) : String :=
  String.mk (s.data.map Char.toLower)

/-- Tests whether `pre` is a prefix of the character list. -/
def charsPrefix : List Char → List Char → Bool
  | [], _ => true
  | _ :: _, [] => false
  | a :: as, b :: bs => a == b && charsPrefix as bs

/-- Tests whether `sub` occurs as a contiguous run somewhere in the list. -/
def hasSublist (sub : List Char) : List Char → Bool
  | [] => charsPrefix sub []
  | c :: t => charsPrefix sub (c :: t) || hasSublist sub t

/-- Substring occurrence test: `sub` occurs in `s`. -/
def containsSubstr (s sub : String) : Bool :=
  hasSublist sub.data s.data

/-- The six daily time templates of `get_available_slots` /
`generate_static_slots`, in source order. -/
def dailyTemplates : List String :=
  ["09:00 AM", "10:00 AM", "11:00 AM", "02:00 PM", "03:00 PM", "04:00 PM"]

/-- Model of `generate_static_slots()`: for each of the next 7 days, the six
templated slot strings, day-major. -/
def generate_static_slots (dateStr : Nat → String) : List String :=
  ((List.range 7).map (fun i => dailyTemplates.map (fun t => dateStr i ++ " " ++ t))).flatten

/-- A persisted appointment document, with the exact fields written by
`save_appointment_to_db`. -/
structure Booking where
  booking_id : String
  name : String
  age : Nat
  gender : String
  phone : String
  email : String
  doctor : String
  doctor_specialization : String
  appointment_slot : String
  symptoms : String
  status : String
  created_at : Nat
  updated_at : Nat
deriving Repr, DecidableEq

/-- Process state: the MongoDB connection (`mongo_client`/`db`), the
`appointments` collection, the `st.cache_data` cache of
`get_available_slots`, and the failure behaviour of the store. -/
structure AppState where
  connected : Bool
  appointments : List Booking
  slotsCache : Option (List String)
  readFails : Bool
  insertFails : Bool
deriving Repr, DecidableEq

/-- The slot strings of the documents matching `{"status": "confirmed"}`
(the `booked_slot_times` list of `get_available_slots`). -/
def booked_slot_times (apps : List Booking) : List String :=
  (apps.filter (fun b => b.status == "confirmed")).map (fun b => b.appointment_slot)

/-- The body of `get_available_slots()` without the cache layer:
fall back to `generate_static_slots` when the client is missing or the
read raises; otherwise keep, day by day, the templated slots not in
`booked_slot_times`, and return `[]` when nothing is left. -/
def compute_available_slots (dateStr : Nat → String) (st : AppState) : List String :=
  if st.connected = false then generate_static_slots dateStr
  else if st.readFails then generate_static_slots dateStr
  else
    let booked := booked_slot_times st.appointments
    let slots :=
      ((List.range 7).map (fun i =>
        (dailyTemplates.map (fun t => dateStr i ++ " " ++ t)).filter
          (fun s => !booked.contains s))).flatten
    if slots.isEmpty then [] else slots

/-- Model of `get_available_slots()` as called (through `@st.cache_data`):
serve the cached value when present, otherwise compute and fill the
cache. -/
def get_available_slots (dateStr : Nat → String) (st : AppState) :
    List String × AppState :=
  match st.slotsCache with
  | some v => (v, st)
  | none =>
      let r := compute_available_slots dateStr st
      (r, { st with slotsCache := some r })

/-- The form contents passed to `save_appointment_to_db` as
`appointment_details`. -/
structure AppointmentDetails where
  name : String
  age : Nat
  gender : String
  phone : String
  email : String
  doctor : String
  doctor_specialization : String
  slot : String
  symptoms : String
deriving Repr, DecidableEq

/-- The `appointment_data` document built inside `save_appointment_to_db`:
stripped name/gender/phone/symptoms, stripped and lowercased email,
status `"confirmed"`, `created_at = updated_at = current_time`. -/
def appointment_data (booking_id : String) (current_time : Nat)
    (d : AppointmentDetails) : Booking :=
  { booking_id := booking_id
    name := pyStrip d.name
    age := d.age
    gender := pyStrip d.gender
    phone := pyStrip d.phone
    email := pyLower (pyStrip d.email)
    doctor := d.doctor
    doctor_specialization := d.doctor_specialization
    appointment_slot := d.slot
    symptoms := pyStrip d.symptoms
    status := "confirmed"
    created_at := current_time
    updated_at := current_time }

/-- The `try` body of `save_appointment_to_db`: raise when the
connection is missing, build `appointment_data`, call
`db.appointments.insert_one` (which either persists the document or
raises), and on success clear the slots cache and return the booking
id. -/
def save_appointment_to_db_body (booking_id : String) (current_time : Nat)
    (d : AppointmentDetails) (st : AppState) :
    Except String (String × AppState) :=
  if st.connected = false then
    .error "Database connection not established"
  else
    let data := appointment_data booking_id current_time d
    if st.insertFails then .error "insert raised"
    else
      .ok (booking_id,
        { st with appointments := st.appointments ++ [data], slotsCache := none })

/-- Model of `save_appointment_to_db`: the body above wrapped in the
`try/except` that reports any exception and returns `None`. -/
def save_appointment_to_db (booking_id : String) (current_time : Nat)
    (d : AppointmentDetails) (st : AppState) : Option String × AppState :=
  match save_appointment_to_db_body booking_id current_time d st with
  | .ok (bid, st2) => (some bid, st2)
  | .error _ => (none, st)

/-- The booking draft collected by the form in
`handle_appointment_booking`: text inputs, the number input for age
(widget-bounded to 1..120), the gender selectbox (default `"Select"`),
the doctor selection buttons (`None` until one is clicked), the slot
selectbox and the symptoms text area. -/
structure Draft where
  name : String
  age : Nat
  gender : String
  phone : String
  email : String
  selected_doctor : Option String
  slot : String
  symptoms : String
deriving Repr, DecidableEq

/-- The guard of the `Book Appointment` button:
`name and age and gender != "Select" and phone and email and
preferred_slot and symptoms and selected_doctor`, with Python
truthiness. -/
def validDraft (d : Draft) : Bool :=
  d.name ≠ "" && d.age ≠ 0 && d.gender ≠ "Select" && d.phone ≠ "" &&
    d.email ≠ "" && d.slot ≠ "" && d.symptoms ≠ "" && d.selected_doctor.isSome

/-- Outcome of a submit attempt in `handle_appointment_booking`. -/
inductive BookingResult where
  | booked (booking_id : String)
  | validationError (msg : String)
  | saveFailed
deriving Repr, DecidableEq

/-- The `appointment_details` dict built from the collected form
fields (doctor specialization denormalized from the catalog). -/
def draft_details (doctorsSpec : String → String) (d : Draft) :
    AppointmentDetails :=
  { name := d.name, age := d.age, gender := d.gender, phone := d.phone
    email := d.email, doctor := d.selected_doctor.getD ""
    doctor_specialization := doctorsSpec (d.selected_doctor.getD "")
    slot := d.slot, symptoms := d.symptoms }

/-- The submit branch of `handle_appointment_booking` (the
`Book Appointment` click): validate all required fields in one guard,
build `appointment_details`, call `save_appointment_to_db`, and on a
returned booking id refresh `st.session_state.available_slots` via
`get_available_slots()`; on a falsy field show the single error
`"Please fill in all the required fields."` and write nothing. -/
def handle_appointment_booking (uuid : String) (now : Nat)
    (dateStr : Nat → String) (doctorsSpec : String → String)
    (d : Draft) (st : AppState) : BookingResult × AppState :=
  if validDraft d then
    match save_appointment_to_db uuid now (draft_details doctorsSpec d) st with
    | (some bid, st2) =>
        let (_, st3) := get_available_slots dateStr st2
        (.booked bid, st3)
    | (none, st2) => (.saveFailed, st2)
  else
    (.validationError "Please fill in all the required fields.", st)

/-! ### Concrete inputs used as witnesses -/

/-- The dates of the example scenario, 2024-06-01 through 2024-06-07. -/
def exDates : Nat → String := fun i =>
  ["2024-06-01", "2024-06-02", "2024-06-03", "2024-06-04",
   "2024-06-05", "2024-06-06", "2024-06-07"].getD i ""

/-- A confirmed booking occupying the slot `2024-06-01 09:00 AM`. -/
def exBooking : Booking :=
  { booking_id := "b1", name := "Alice", age := 30, gender := "Female"
    phone := "123", email := "a@b.c", doctor := "Dr. John Smith"
    doctor_specialization := "General Physician"
    appointment_slot := "2024-06-01 09:00 AM", symptoms := "cough"
    status := "confirmed", created_at := 0, updated_at := 0 }

/-- Connected state with one confirmed booking and an empty cache. -/
def exState : AppState :=
  { connected := true, appointments := [exBooking], slotsCache := none
    readFails := false, insertFails := false }

/-- Connected state with an empty collection and an empty cache. -/
def exState0 : AppState :=
  { connected := true, appointments := [], slotsCache := none
    readFails := false, insertFails := false }

/-- Disconnected state (no MongoDB client). -/
def exStateDown : AppState :=
  { connected := false, appointments := [], slotsCache := none
    readFails := false, insertFails := false }

/-- Example form contents targeting the slot `2024-06-01 09:00 AM`,
with surrounding whitespace and mixed-case email to exercise
normalization. -/
def exDetails : AppointmentDetails :=
  { name := " Alice ", age := 30, gender := "Female", phone := " 123 "
    email := " A@B.c ", doctor := "Dr. John Smith"
    doctor_specialization := "General Physician"
    slot := "2024-06-01 09:00 AM", symptoms := " cough " }

/-- A draft whose only missing required field is the name. -/
def draftMissingName : Draft :=
  { name := "", age := 30, gender := "Male", phone := "555"
    email := "x@y.z", selected_doctor := some "Dr. John Smith"
    slot := "2024-06-01 09:00 AM", symptoms := "cough" }

/-- A draft whose only missing required field is the phone number. -/
def draftMissingPhone : Draft :=
  { name := "Bob", age := 30, gender := "Male", phone := ""
    email := "x@y.z", selected_doctor := some "Dr. John Smith"
    slot := "2024-06-01 09:00 AM", symptoms := "cough" }

/-- The specialization lookup of the static doctor catalog
`get_doctors_info`. -/
def exSpec : String → String := fun d =>
  if d = "Dr. John Smith" then "General Physician"
  else if d = "Dr. Sarah Johnson" then "Cardiologist"
  else if d = "Dr. Michael Chen" then "Pediatrician"
  else if d = "Dr. Emily Williams" then "Dermatologist"
  else ""

/-! ### Helper lemmas -/

/-- Filtering each block of a flattened list is filtering the
flattened list. -/
theorem filter_map_flatten {α β : Type} (p : α → Bool) (f : β → List α)
    (l : List β) :
    (l.map (fun x => (f x).filter p)).flatten = ((l.map f).flatten).filter p := by
  induction l with
  | nil => rfl
  | cons x xs ih => simp [List.filter_append, ih]

/-- On a connected, readable store, the availability computation is the
generated slot list filtered by `booked_slot_times`. -/
theorem compute_available_slots_eq (dateStr : Nat → String) (st : AppState)
    (hc : st.connected = true) (hr : st.readFails = false) :
    compute_available_slots dateStr st =
      (generate_static_slots dateStr).filter
        (fun s => !(booked_slot_times st.appointments).contains s) := by
  unfold compute_available_slots
  rw [hc, hr]
  simp only [Bool.true_eq_false, if_false, if_neg Bool.false_ne_true]
  rw [filter_map_flatten]
  unfold generate_static_slots
  set slots :=
    (((List.range 7).map fun i =>
      dailyTemplates.map fun t => dateStr i ++ " " ++ t).flatten).filter
      (fun s => !(booked_slot_times st.appointments).contains s) with hslots
  cases h : slots with
  | nil => simp
  | cons a l => simp

/-! ### Claims -/

/-- C7: slot generation for the 7-day window with the 6 daily time
templates is deterministic in the date function and yields exactly the
42 slots in date-major, time-minor order, each day in template order
09:00 AM, 10:00 AM, 11:00 AM, 02:00 PM, 03:00 PM, 04:00 PM. -/
theorem generate_static_slots_spec (dateStr : Nat → String) :
    generate_static_slots dateStr =
      [dateStr 0 ++ " " ++ "09:00 AM", dateStr 0 ++ " " ++ "10:00 AM",
       dateStr 0 ++ " " ++ "11:00 AM", dateStr 0 ++ " " ++ "02:00 PM",
       dateStr 0 ++ " " ++ "03:00 PM", dateStr 0 ++ " " ++ "04:00 PM",
       dateStr 1 ++ " " ++ "09:00 AM", dateStr 1 ++ " " ++ "10:00 AM",
       dateStr 1 ++ " " ++ "11:00 AM", dateStr 1 ++ " " ++ "02:00 PM",
       dateStr 1 ++ " " ++ "03:00 PM", dateStr 1 ++ " " ++ "04:00 PM",
       dateStr 2 ++ " " ++ "09:00 AM", dateStr 2 ++ " " ++ "10:00 AM",
       dateStr 2 ++ " " ++ "11:00 AM", dateStr 2 ++ " " ++ "02:00 PM",
       dateStr 2 ++ " " ++ "03:00 PM", dateStr 2 ++ " " ++ "04:00 PM",
       dateStr 3 ++ " " ++ "09:00 AM", dateStr 3 ++ " " ++ "10:00 AM",
       dateStr 3 ++ " " ++ "11:00 AM", dateStr 3 ++ " " ++ "02:00 PM",
       dateStr 3 ++ " " ++ "03:00 PM", dateStr 3 ++ " " ++ "04:00 PM",
       dateStr 4 ++ " " ++ "09:00 AM", dateStr 4 ++ " " ++ "10:00 AM",
       dateStr 4 ++ " " ++ "11:00 AM", dateStr 4 ++ " " ++ "02:00 PM",
       dateStr 4 ++ " " ++ "03:00 PM", dateStr 4 ++ " " ++ "04:00 PM",
       dateStr 5 ++ " " ++ "09:00 AM", dateStr 5 ++ " " ++ "10:00 AM",
       dateStr 5 ++ " " ++ "11:00 AM", dateStr 5 ++ " " ++ "02:00 PM",
       dateStr 5 ++ " " ++ "03:00 PM", dateStr 5 ++ " " ++ "04:00 PM",
       dateStr 6 ++ " " ++ "09:00 AM", dateStr 6 ++ " " ++ "10:00 AM",
       dateStr 6 ++ " " ++ "11:00 AM", dateStr 6 ++ " " ++ "02:00 PM",
       dateStr 6 ++ " " ++ "03:00 PM", dateStr 6 ++ " " ++ "04:00 PM"] ∧
    (generate_static_slots dateStr).length = 42 ∧
    dailyTemplates =
      ["09:00 AM", "10:00 AM", "11:00 AM", "02:00 PM", "03:00 PM", "04:00 PM"] := by
  refine ⟨rfl, rfl, rfl⟩

/-- C1 is violated by the code: `save_appointment_to_db` performs an
unconditional `insert_one` with no uniqueness check, so two submissions
of the same slot both succeed and two confirmed bookings referencing
the same slot are persisted; no `SlotConflict` outcome exists. -/
theorem double_booking_same_slot :
    (save_appointment_to_db "uuid-1" 10 exDetails exState0).1 = some "uuid-1" ∧
    (save_appointment_to_db "uuid-2" 11 exDetails
        (save_appointment_to_db "uuid-1" 10 exDetails exState0).2).1 = some "uuid-2" ∧
    ((save_appointment_to_db "uuid-2" 11 exDetails
        (save_appointment_to_db "uuid-1" 10 exDetails exState0).2).2.appointments.map
      (fun b => (b.booking_id, b.status, b.appointment_slot))) =
      [("uuid-1", "confirmed", "2024-06-01 09:00 AM"),
       ("uuid-2", "confirmed", "2024-06-01 09:00 AM")] := by
  refine ⟨rfl, rfl, rfl⟩

/-- Shared lemma: on a connected, readable store with an empty cache,
the availability query is the generated list filtered by the confirmed
slot set, and no confirmed booking's slot appears in it. -/
theorem available_slots_minus_confirmed (dateStr : Nat → String) (st : AppState)
    (hc : st.connected = true) (hr : st.readFails = false)
    (hcache : st.slotsCache = none) :
    (get_available_slots dateStr st).1 =
      (generate_static_slots dateStr).filter
        (fun s => !(booked_slot_times st.appointments).contains s) ∧
    ∀ b ∈ st.appointments, b.status = "confirmed" →
      b.appointment_slot ∉ (get_available_slots dateStr st).1 := by
  have h1 : (get_available_slots dateStr st).1 = compute_available_slots dateStr st := by
    simp [get_available_slots, hcache]
  rw [h1, compute_available_slots_eq dateStr st hc hr]
  refine ⟨rfl, ?_⟩
  intro b hb hstat hmem
  have h2 := (List.mem_filter.mp hmem).2
  have h3 : b.appointment_slot ∈ booked_slot_times st.appointments := by
    unfold booked_slot_times
    exact List.mem_map_of_mem _ (List.mem_filter.mpr ⟨hb, by simp [hstat]⟩)
  simp at h2
  exact h2 h3

/-- C2: on a connected, readable store with an invalidated cache, the
availability query returns the generated slot sequence minus the slots
of confirmed bookings, preserving generator order, and never includes
the slot of any confirmed booking. -/
theorem get_available_slots_spec (dateStr : Nat → String) (st : AppState)
    (hc : st.connected = true) (hr : st.readFails = false)
    (hcache : st.slotsCache = none) :
    (get_available_slots dateStr st).1 =
      (generate_static_slots dateStr).filter
        (fun s => !(booked_slot_times st.appointments).contains s) ∧
    ∀ b ∈ st.appointments, b.status = "confirmed" →
      b.appointment_slot ∉ (get_available_slots dateStr st).1 :=
  available_slots_minus_confirmed dateStr st hc hr hcache

/-- Witness for C2: the example scenario — dates 2024-06-01..07, one
confirmed booking at `2024-06-01 09:00 AM`; the query excludes exactly
that string and returns the other 41 of the 42 generated slots. -/
theorem get_available_slots_spec_witness :
    exState.connected = true ∧ exState.readFails = false ∧
    exState.slotsCache = none ∧
    (get_available_slots exDates exState).1 =
      (generate_static_slots exDates).filter
        (fun s => !(booked_slot_times exState.appointments).contains s) ∧
    (generate_static_slots exDates).length = 42 ∧
    (get_available_slots exDates exState).1.length = 41 ∧
    "2024-06-01 09:00 AM" ∉ (get_available_slots exDates exState).1 ∧
    ∀ s ∈ generate_static_slots exDates, s ≠ "2024-06-01 09:00 AM" →
      s ∈ (get_available_slots exDates exState).1 :=
  ⟨rfl, rfl, rfl, (get_available_slots_spec exDates exState rfl rfl rfl).1,
   by decide, by decide, by decide, by decide⟩

/-- C3: a successful `save_appointment_to_db` clears the slots cache,
so a subsequent availability query in the same process (the store still
readable) recomputes and no longer includes the just-booked slot. -/
theorem booked_slot_not_available_after_save (dateStr : Nat → String)
    (uuid : String) (now : Nat) (d : AppointmentDetails) (st : AppState)
    (bid : String) (st2 : AppState) (hr : st.readFails = false)
    (hs : save_appointment_to_db uuid now d st = (some bid, st2)) :
    d.slot ∉ (get_available_slots dateStr st2).1 := by
  unfold save_appointment_to_db save_appointment_to_db_body at hs
  by_cases hc : st.connected = false
  · simp [hc] at hs
  · rw [if_neg hc] at hs
    by_cases hi : st.insertFails
    · simp [hi] at hs
    · simp only [hi, if_false, Bool.false_eq_true] at hs
      injection hs with hbid hstate
      have hc2 : st.connected = true := by
        cases h : st.connected
        · exact absurd h hc
        · rfl
      subst hstate
      have hspec := available_slots_minus_confirmed dateStr
        ({ st with
             appointments := st.appointments ++ [appointment_data uuid now d],
             slotsCache := none }) hc2 hr rfl
      exact hspec.2 (appointment_data uuid now d) (by simp) rfl

/-- Witness for C3: booking `2024-06-01 09:00 AM` in an empty connected
store, then querying availability, does not show that slot. -/
theorem booked_slot_not_available_after_save_witness :
    exState0.readFails = false ∧
    exDetails.slot ∉
      (get_available_slots exDates
        (save_appointment_to_db "uuid-1" 5 exDetails exState0).2).1 :=
  ⟨rfl, booked_slot_not_available_after_save exDates "uuid-1" 5 exDetails
    exState0 "uuid-1" _ rfl rfl⟩

/-- C4: when the store is unavailable (no client) or the read raises,
the availability query (cache invalid) returns the full generated
7-day slot list instead of propagating the error. -/
theorem available_slots_fail_open (dateStr : Nat → String) (st : AppState)
    (h : st.connected = false ∨ st.readFails = true)
    (hcache : st.slotsCache = none) :
    (get_available_slots dateStr st).1 = generate_static_slots dateStr := by
  rcases h with h | h
  · simp [get_available_slots, hcache, compute_available_slots, h]
  · simp [get_available_slots, hcache, compute_available_slots, h]

/-- Witness for C4: with no MongoDB client, the query returns the full
42-slot generated list. -/
theorem available_slots_fail_open_witness :
    (exStateDown.connected = false ∨ exStateDown.readFails = true) ∧
    exStateDown.slotsCache = none ∧
    (get_available_slots exDates exStateDown).1 = generate_static_slots exDates :=
  ⟨Or.inl rfl, rfl, available_slots_fail_open exDates exStateDown (Or.inl rfl) rfl⟩

/-- C5: when the store is unavailable or the insert raises, the write
fails closed: `save_appointment_to_db` returns `None` and the state —
in particular the set of persisted bookings — is unchanged. -/
theorem save_fail_closed (uuid : String) (now : Nat)
    (d : AppointmentDetails) (st : AppState)
    (h : st.connected = false ∨ st.insertFails = true) :
    save_appointment_to_db uuid now d st = (none, st) := by
  rcases h with h | h
  · simp [save_appointment_to_db, save_appointment_to_db_body, h]
  · cases hcon : st.connected <;>
      simp [save_appointment_to_db, save_appointment_to_db_body, h, hcon]

/-- Witness for C5: saving against a missing connection returns `None`
and leaves the (empty) collection unchanged. -/
theorem save_fail_closed_witness :
    (exStateDown.connected = false ∨ exStateDown.insertFails = true) ∧
    save_appointment_to_db "uuid-1" 5 exDetails exStateDown = (none, exStateDown) :=
  ⟨Or.inl rfl, save_fail_closed "uuid-1" 5 exDetails exStateDown (Or.inl rfl)⟩

/-- Reading availability only reads the collection: the appointments
list is unchanged. -/
theorem get_available_slots_preserves_appointments (dateStr : Nat → String)
    (st : AppState) :
    (get_available_slots dateStr st).2.appointments = st.appointments := by
  cases h : st.slotsCache <;> simp [get_available_slots, h]

/-- Persisting only ever writes documents with status
`"confirmed"`. -/
theorem save_preserves_confirmed (uuid : String) (now : Nat)
    (d : AppointmentDetails) (st : AppState)
    (h : ∀ b ∈ st.appointments, b.status = "confirmed") :
    ∀ b ∈ (save_appointment_to_db uuid now d st).2.appointments,
      b.status = "confirmed" := by
  by_cases hc : st.connected = false
  · simpa [save_appointment_to_db, save_appointment_to_db_body, hc] using h
  · by_cases hi : st.insertFails
    · cases hcon : st.connected <;>
        simpa [save_appointment_to_db, save_appointment_to_db_body, hi, hcon] using h
    · intro b hb
      simp only [save_appointment_to_db, save_appointment_to_db_body,
        if_neg hc, hi, if_false, Bool.false_eq_true] at hb
      rcases List.mem_append.mp hb with hb | hb
      · exact h b hb
      · simp only [List.mem_singleton] at hb
        subst hb
        rfl

/-- C6 counterexample: the claim says the validation error names each
missing field.  The code shows the single fixed message
`"Please fill in all the required fields."` for every invalid draft:
for the draft missing only the name, the message does not mention
`"name"`, and the draft missing only the phone yields the identical
message. -/
theorem validation_error_does_not_name_fields :
    (handle_appointment_booking "u" 0 exDates exSpec draftMissingName exState0).1 =
      .validationError "Please fill in all the required fields." ∧
    containsSubstr "Please fill in all the required fields." "name" = false ∧
    (handle_appointment_booking "u" 0 exDates exSpec draftMissingPhone exState0).1 =
      .validationError "Please fill in all the required fields." := by
  refine ⟨rfl, by decide, rfl⟩

/-- C6 (amended): for every draft with a missing or empty required
field, submit returns the single generic validation error
`"Please fill in all the required fields."` (not naming the fields)
and performs zero writes: the state, in particular the collection of
persisted bookings, is unchanged. -/
theorem submit_invalid_generic_error_no_write (uuid : String) (now : Nat)
    (dateStr : Nat → String) (doctorsSpec : String → String)
    (d : Draft) (st : AppState) (h : validDraft d = false) :
    handle_appointment_booking uuid now dateStr doctorsSpec d st =
      (.validationError "Please fill in all the required fields.", st) := by
  simp [handle_appointment_booking, h]

/-- Witness for amended C6: the draft missing only the name. -/
theorem submit_invalid_generic_error_no_write_witness :
    validDraft draftMissingName = false ∧
    handle_appointment_booking "u" 0 exDates exSpec draftMissingName exState0 =
      (.validationError "Please fill in all the required fields.", exState0) :=
  ⟨by decide, submit_invalid_generic_error_no_write "u" 0 exDates exSpec
    draftMissingName exState0 (by decide)⟩

/-- C8: every record persisted by a successful save is normalized —
name, phone and symptoms stripped of surrounding whitespace, email
stripped and lowercased — and, with the age in the 1..120 range the
form's number input enforces (`min_value=1, max_value=120`), the
persisted age is a positive integer bounded by 120. -/
theorem saved_record_normalized (uuid : String) (now : Nat)
    (d : AppointmentDetails) (st : AppState) (bid : String) (st2 : AppState)
    (ha1 : 1 ≤ d.age) (ha2 : d.age ≤ 120)
    (hs : save_appointment_to_db uuid now d st = (some bid, st2)) :
    ∃ r, st2.appointments = st.appointments ++ [r] ∧
      r.name = pyStrip d.name ∧ r.phone = pyStrip d.phone ∧
      r.symptoms = pyStrip d.symptoms ∧
      r.email = pyLower (pyStrip d.email) ∧
      1 ≤ r.age ∧ r.age ≤ 120 := by
  unfold save_appointment_to_db save_appointment_to_db_body at hs
  by_cases hc : st.connected = false
  · simp [hc] at hs
  · rw [if_neg hc] at hs
    by_cases hi : st.insertFails
    · simp [hi] at hs
    · simp only [hi, if_false, Bool.false_eq_true] at hs
      injection hs with hbid hstate
      subst hstate
      exact ⟨appointment_data uuid now d, rfl, rfl, rfl, rfl, rfl, ha1, ha2⟩

/-- Witness for C8: the example details with padded name/phone/symptoms
and mixed-case padded email, persisted in normalized form. -/
theorem saved_record_normalized_witness :
    1 ≤ exDetails.age ∧ exDetails.age ≤ 120 ∧
    pyStrip exDetails.name = "Alice" ∧
    pyLower (pyStrip exDetails.email) = "a@b.c" ∧
    ∃ r, (save_appointment_to_db "u" 0 exDetails exState0).2.appointments =
        exState0.appointments ++ [r] ∧
      r.name = pyStrip exDetails.name ∧ r.phone = pyStrip exDetails.phone ∧
      r.symptoms = pyStrip exDetails.symptoms ∧
      r.email = pyLower (pyStrip exDetails.email) ∧
      1 ≤ r.age ∧ r.age ≤ 120 :=
  ⟨by decide, by decide, by decide, by decide,
   saved_record_normalized "u" 0 exDetails exState0 "u" _
     (by decide) (by decide) rfl⟩

/-- C9: every record persisted by a successful save has status
`"confirmed"`, `created_at = updated_at` (the single timestamp taken at
confirmation), and the freshly supplied id as `booking_id` (also the
returned id); and no other status value is ever written — both the save
routine and the submit handler preserve the all-confirmed invariant. -/
theorem saved_record_confirmed (uuid : String) (now : Nat)
    (d : AppointmentDetails) (st : AppState) (bid : String) (st2 : AppState)
    (hs : save_appointment_to_db uuid now d st = (some bid, st2)) :
    (∃ r, st2.appointments = st.appointments ++ [r] ∧
      r.status = "confirmed" ∧ r.created_at = now ∧ r.updated_at = now ∧
      r.created_at = r.updated_at ∧ r.booking_id = uuid ∧ bid = uuid) ∧
    ((∀ b ∈ st.appointments, b.status = "confirmed") →
      ∀ b ∈ st2.appointments, b.status = "confirmed") ∧
    (∀ (uuid2 : String) (now2 : Nat) (dS : Nat → String)
        (dSp : String → String) (d2 : Draft) (st3 : AppState),
      (∀ b ∈ st3.appointments, b.status = "confirmed") →
      ∀ b ∈ (handle_appointment_booking uuid2 now2 dS dSp d2 st3).2.appointments,
        b.status = "confirmed") := by
  refine ⟨?_, ?_, ?_⟩
  · unfold save_appointment_to_db save_appointment_to_db_body at hs
    by_cases hc : st.connected = false
    · simp [hc] at hs
    · rw [if_neg hc] at hs
      by_cases hi : st.insertFails
      · simp [hi] at hs
      · simp only [hi, if_false, Bool.false_eq_true] at hs
        injection hs with hbid hstate
        subst hstate
        exact ⟨appointment_data uuid now d, rfl, rfl, rfl, rfl, rfl, rfl,
          (Option.some.inj hbid).symm⟩
  · intro h
    have := save_preserves_confirmed uuid now d st h
    rw [hs] at this
    exact this
  · intro uuid2 now2 dS dSp d2 st3 h
    unfold handle_appointment_booking
    by_cases hv : validDraft d2
    · simp only [hv, if_true]
      rcases hsave : save_appointment_to_db uuid2 now2 (draft_details dSp d2) st3
        with ⟨obid, st4⟩
      have hpres := save_preserves_confirmed uuid2 now2 (draft_details dSp d2) st3 h
      rw [hsave] at hpres
      cases obid with
      | none => exact hpres
      | some bid2 =>
          intro b hb
          have hb2 : b ∈ (get_available_slots dS st4).2.appointments := hb
          rw [get_available_slots_preserves_appointments] at hb2
          exact hpres b hb2
    · simpa [hv] using h

/-- Witness for C9: the example save into the empty connected store. -/
theorem saved_record_confirmed_witness :
    save_appointment_to_db "u" 7 exDetails exState0 =
      (some "u", (save_appointment_to_db "u" 7 exDetails exState0).2) ∧
    ∃ r, (save_appointment_to_db "u" 7 exDetails exState0).2.appointments =
        exState0.appointments ++ [r] ∧
      r.status = "confirmed" ∧ r.created_at = 7 ∧ r.updated_at = 7 ∧
      r.created_at = r.updated_at ∧ r.booking_id = "u" ∧ "u" = "u" :=
  ⟨rfl, (saved_record_confirmed "u" 7 exDetails exState0 "u" _ rfl).1⟩

/-- C10: the persistence routine is total at its boundary — every
failure of the underlying store surfaces as a caught exception of the
body, mapped to `None` with the state unchanged; a booking id is
returned exactly when the body reports a successful insert (connected
store, insert did not raise). -/
theorem save_total_boundary (uuid : String) (now : Nat)
    (d : AppointmentDetails) (st : AppState) :
    (∃ e, save_appointment_to_db_body uuid now d st = .error e ∧
      save_appointment_to_db uuid now d st = (none, st)) ∨
    (∃ st2, save_appointment_to_db_body uuid now d st = .ok (uuid, st2) ∧
      save_appointment_to_db uuid now d st = (some uuid, st2) ∧
      st.connected = true ∧ st.insertFails = false) := by
  by_cases hc : st.connected = false
  · exact Or.inl ⟨"Database connection not established",
      by simp [save_appointment_to_db_body, hc],
      by simp [save_appointment_to_db, save_appointment_to_db_body, hc]⟩
  · have hc2 : st.connected = true := by
      cases h : st.connected
      · exact absurd h hc
      · rfl
    by_cases hi : st.insertFails
    · exact Or.inl ⟨"insert raised",
        by simp [save_appointment_to_db_body, hc, hi],
        by simp [save_appointment_to_db, save_appointment_to_db_body, hc, hi]⟩
    · have hi2 : st.insertFails = false := by
        cases h : st.insertFails
        · rfl
        · exact absurd h hi
      refine Or.inr ⟨{ st with
          appointments := st.appointments ++ [appointment_data uuid now d],
          slotsCache := none }, ?_, ?_, hc2, hi2⟩
      · simp [save_appointment_to_db_body, hc, hi]
      · simp [save_appointment_to_db, save_appointment_to_db_body, hc, hi]
